import Mathlib

/-!
# Inkrypt pipeline — shallow embedding

A shallow embedding of the core orchestration code of the Inkrypt
penetration-testing pipeline (TypeScript), together with theorems that
settle the specification claims against it.

Embedding notes, applied uniformly below:
* TypeScript strings are Lean `String`; JavaScript numbers that carry
  monetary cost are embedded as `Rat` (exact arithmetic over the same
  `+`/fold structure the source uses); counters are `Nat`.
* Wall-clock timestamps (`Date.now()`) are elided: they decide no claim
  and are pure environment reads.  Where the source stores a duration we
  keep the field and thread the elapsed value as an explicit parameter.
* Fallible operations are embedded with `Except`; a JavaScript thrown
  value is a `JsError` (name + message), mirroring `Error` objects.
-/

/-- A JavaScript `Error` value: `name` and `message` are all the
classifier and the wrappers ever inspect. -/
structure JsError where
  name : String
  message : String
deriving Repr, DecidableEq

/-- JavaScript `String(err)` conversion for `Error` values,
used when a rejection reason is interpolated into a template string. -/
def errToString (e : JsError) : String :=
  e.name ++ ": " ++ e.message

/-- JavaScript `String.prototype.includes`: substring containment. -/
def strIncludes (s pat : String) : Bool :=
  (List.range (s.data.length + 1)).any fun i => pat.data.isPrefixOf (s.data.drop i)

/-- ASCII lowercase of one character (`A`–`Z` shifted by 32, all else fixed). -/
def lowerChar (c : Char) : Char :=
  if 65 ≤ c.toNat ∧ c.toNat ≤ 90 then Char.ofNat (c.toNat + 32) else c

/-- JavaScript `String.prototype.toLowerCase`, restricted to the ASCII
range — every pattern the classifier tests against is ASCII. -/
def lowerStr (s : String) : String := ⟨s.data.map lowerChar⟩

-- ==========================================================================
-- src/types/errors.ts
-- ==========================================================================

/-- `PentestErrorType` (src/types/errors.ts): categorized error types for
retry logic and classification. -/
inductive PentestErrorType where
  | auth_error
  | config_error
  | target_unreachable
  | ssh_connection_error
  | permission_denied
  | tool_not_found
  | timeout_error
  | rate_limit
  | transient_error
  | agent_error
  | validation_error
  | unknown_error
deriving Repr, DecidableEq

-- ==========================================================================
-- classifyError (src/error-handling.ts)
-- ==========================================================================

/-- `classifyError` (src/error-handling.ts): classify an error into a
`PentestErrorType` with retry guidance.  The ordered cascade of
`includes`-tests is translated test for test; the pair is
`(type, retryable)`. -/
def classifyError (error : JsError) : PentestErrorType × Bool :=
  let message := lowerStr error.message
  let name := lowerStr error.name
  if strIncludes message "api key" ||
     strIncludes message "unauthorized" ||
     strIncludes message "authentication failed" ||
     strIncludes message "invalid api" then
    (.auth_error, false)
  else if name == "configerror" ||
     strIncludes message "config" ||
     strIncludes message "schema validation" then
    (.config_error, false)
  else if strIncludes message "econnrefused" ||
     strIncludes message "ehostunreach" ||
     strIncludes message "host unreachable" ||
     strIncludes message "no route to host" then
    (.target_unreachable, true)
  else if strIncludes message "ssh" ||
     strIncludes message "connection reset" ||
     strIncludes message "broken pipe" then
    (.ssh_connection_error, true)
  else if strIncludes message "permission denied" ||
     strIncludes message "access denied" ||
     strIncludes message "eperm" then
    (.permission_denied, false)
  else if strIncludes message "not found" ||
     strIncludes message "command not found" ||
     strIncludes message "enoent" then
    (.tool_not_found, false)
  else if strIncludes message "timeout" ||
     strIncludes message "etimedout" ||
     strIncludes message "timed out" then
    (.timeout_error, true)
  else if strIncludes message "rate limit" ||
     strIncludes message "429" ||
     strIncludes message "too many requests" then
    (.rate_limit, true)
  else if strIncludes message "500" ||
     strIncludes message "502" ||
     strIncludes message "503" ||
     strIncludes message "temporary" ||
     strIncludes message "transient" then
    (.transient_error, true)
  else if strIncludes message "agent" ||
     strIncludes message "claude" ||
     strIncludes message "anthropic" then
    (.agent_error, true)
  else if strIncludes message "validation" ||
     strIncludes message "deliverable" ||
     strIncludes message "expected output" then
    (.validation_error, false)
  else
    (.unknown_error, true)

/-- Disjunction of every pattern test appearing in `classifyError`:
`true` exactly when some listed pattern group matches the error. -/
def matchesListedPattern (error : JsError) : Bool :=
  let message := lowerStr error.message
  let name := lowerStr error.name
  (strIncludes message "api key" ||
   strIncludes message "unauthorized" ||
   strIncludes message "authentication failed" ||
   strIncludes message "invalid api") ||
  (name == "configerror" ||
   strIncludes message "config" ||
   strIncludes message "schema validation") ||
  (strIncludes message "econnrefused" ||
   strIncludes message "ehostunreach" ||
   strIncludes message "host unreachable" ||
   strIncludes message "no route to host") ||
  (strIncludes message "ssh" ||
   strIncludes message "connection reset" ||
   strIncludes message "broken pipe") ||
  (strIncludes message "permission denied" ||
   strIncludes message "access denied" ||
   strIncludes message "eperm") ||
  (strIncludes message "not found" ||
   strIncludes message "command not found" ||
   strIncludes message "enoent") ||
  (strIncludes message "timeout" ||
   strIncludes message "etimedout" ||
   strIncludes message "timed out") ||
  (strIncludes message "rate limit" ||
   strIncludes message "429" ||
   strIncludes message "too many requests") ||
  (strIncludes message "500" ||
   strIncludes message "502" ||
   strIncludes message "503" ||
   strIncludes message "temporary" ||
   strIncludes message "transient") ||
  (strIncludes message "agent" ||
   strIncludes message "claude" ||
   strIncludes message "anthropic") ||
  (strIncludes message "validation" ||
   strIncludes message "deliverable" ||
   strIncludes message "expected output")

/-- The first three pattern groups of `classifyError` — the groups tested
before the SSH-connection group. -/
def matchesPreSshPattern (error : JsError) : Bool :=
  let message := lowerStr error.message
  let name := lowerStr error.name
  (strIncludes message "api key" ||
   strIncludes message "unauthorized" ||
   strIncludes message "authentication failed" ||
   strIncludes message "invalid api") ||
  (name == "configerror" ||
   strIncludes message "config" ||
   strIncludes message "schema validation") ||
  (strIncludes message "econnrefused" ||
   strIncludes message "ehostunreach" ||
   strIncludes message "host unreachable" ||
   strIncludes message "no route to host")

example : classifyError ⟨"Error", "ECONNREFUSED"⟩ = (.target_unreachable, true) := by decide
example : classifyError ⟨"Error", "401 unauthorized invalid api key"⟩ = (.auth_error, false) := by decide
example : classifyError ⟨"Error", "ssh: permission denied"⟩ = (.ssh_connection_error, true) := by decide
example : classifyError ⟨"Error", "ssh authentication failed"⟩ = (.auth_error, false) := by decide
example : matchesListedPattern ⟨"Error", "zzz"⟩ = false := by decide

-- ==========================================================================
-- src/temporal/shared.ts — data model
-- ==========================================================================

/-- Agent names are the string literals of the `AgentName` union
(src/types/agents.ts); the workflow also fabricates `rdp-*`/`vnc-*`
names via casts, so the embedding keeps the open `String` carrier. -/
abbrev AgentName := String

/-- `AgentMetrics` (src/temporal/shared.ts): metrics collected per agent
execution.  `cost` (USD) is embedded as `Rat`. -/
structure AgentMetrics where
  agent : AgentName
  duration : Nat
  cost : Rat
  inputTokens : Nat
  outputTokens : Nat
  turns : Nat
  attempts : Nat
  success : Bool
  error : Option String := none
deriving Repr, DecidableEq

/-- `AgentActivityResult` (src/temporal/shared.ts): activity result from
an individual agent execution. -/
structure AgentActivityResult where
  agent : AgentName
  success : Bool
  metrics : AgentMetrics
  deliverables : List String
  error : Option String := none
deriving Repr, DecidableEq

/-- The four lifecycle event kinds pushed by the workflow
(`pushEvent`/`pushCompletionEvent`, src/temporal/workflows.ts). -/
inductive AgentEventKind where
  | started
  | completed
  | failed
  | skipped
deriving Repr, DecidableEq

/-- An `AgentEvent` as pushed by the workflow; the wall-clock `timestamp`
field is elided (see module header), `duration`/`cost` are present only
on completion events. -/
structure AgentEvent where
  agent : AgentName
  event : AgentEventKind
  duration : Option Nat := none
  cost : Option Rat := none
deriving Repr, DecidableEq

/-- `PipelineState.status` values (src/temporal/shared.ts). -/
inductive PipelineStatus where
  | running
  | completed
  | failed
  | cancelled
deriving Repr, DecidableEq

/-- `PipelineState` (src/temporal/shared.ts): overall pipeline state
maintained by the workflow.  `startTime`/`endTime` are elided wall-clock
reads. -/
structure PipelineState where
  sessionId : String
  target : String
  currentPhase : String
  currentAgent : Option AgentName
  activeAgents : List AgentName
  completedAgents : List AgentName
  failedAgents : List AgentName
  skippedAgents : List AgentName
  agentEvents : List AgentEvent
  metrics : List AgentMetrics
  totalCost : Rat
  status : PipelineStatus
  errors : List String
deriving Repr, DecidableEq

/-- The initial `PipelineState` built at the top of
`pentestPipelineWorkflow` (src/temporal/workflows.ts). -/
def initPipelineState (sessionId target : String) : PipelineState :=
  { sessionId := sessionId
    target := target
    currentPhase := "Initializing"
    currentAgent := none
    activeAgents := []
    completedAgents := []
    failedAgents := []
    skippedAgents := []
    agentEvents := []
    metrics := []
    totalCost := 0
    status := .running
    errors := [] }

-- ==========================================================================
-- src/temporal/workflows.ts — state helpers
-- ==========================================================================

/-- `recordResult` (src/temporal/workflows.ts): record an agent result
into pipeline state. -/
def recordResult (state : PipelineState) (result : AgentActivityResult) : PipelineState :=
  let state := { state with
    metrics := state.metrics ++ [result.metrics]
    totalCost := state.totalCost + result.metrics.cost }
  if result.success then
    { state with completedAgents := state.completedAgents ++ [result.agent] }
  else
    { state with
      failedAgents := state.failedAgents ++ [result.agent]
      errors := match result.error with
        | some err => state.errors ++ ["[" ++ result.agent ++ "] " ++ err]
        | none => state.errors }

/-- `pushEvent` (src/temporal/workflows.ts): push an agent lifecycle
event and update `activeAgents` tracking. -/
def pushEvent (state : PipelineState) (agent : AgentName) (event : AgentEventKind) : PipelineState :=
  let state := { state with agentEvents := state.agentEvents ++ [({ agent := agent, event := event } : AgentEvent)] }
  match event with
  | .started => { state with activeAgents := state.activeAgents ++ [agent] }
  | _ => { state with activeAgents := state.activeAgents.filter (fun a => a ≠ agent) }

/-- `pushCompletionEvent` (src/temporal/workflows.ts): push a completed
or failed event based on an activity result, and drop the agent from
`activeAgents`. -/
def pushCompletionEvent (state : PipelineState) (result : AgentActivityResult) : PipelineState :=
  let event : AgentEventKind := if result.success then .completed else .failed
  { state with
    agentEvents := state.agentEvents ++
      [({ agent := result.agent, event := event,
          duration := some result.metrics.duration, cost := some result.metrics.cost } : AgentEvent)]
    activeAgents := state.activeAgents.filter (fun a => a ≠ result.agent) }

-- ==========================================================================
-- src/temporal/activities.ts — module exports
-- ==========================================================================

/-- The names exported by the activities module and registered with the
Temporal worker via `allActivities` (src/temporal/activities.ts,
src/temporal/worker.ts).  Note the absence of any `rdp*`/`vnc*`
activity. -/
def allActivities : List String :=
  [ "preReconActivity"
  , "reconActivity"
  , "sshVulnActivity"
  , "privescVulnActivity"
  , "networkVulnActivity"
  , "misconfigVulnActivity"
  , "credentialVulnActivity"
  , "sshExploitActivity"
  , "privescExploitActivity"
  , "networkExploitActivity"
  , "misconfigExploitActivity"
  , "credentialExploitActivity"
  , "reportActivity"
  , "preReconToolScanActivity"
  , "assembleReportActivity" ]

/-- The property of the `activities` object that `getActivityFunction`'s
lookup table reads for each agent (src/temporal/workflows.ts, the
`mapping` record). -/
def activityRefName (agent : AgentName) : String :=
  if agent == "pre-recon" then "preReconActivity"
  else if agent == "recon" then "reconActivity"
  else if agent == "ssh-vuln" then "sshVulnActivity"
  else if agent == "privesc-vuln" then "privescVulnActivity"
  else if agent == "network-vuln" then "networkVulnActivity"
  else if agent == "misconfig-vuln" then "misconfigVulnActivity"
  else if agent == "credential-vuln" then "credentialVulnActivity"
  else if agent == "ssh-exploit" then "sshExploitActivity"
  else if agent == "privesc-exploit" then "privescExploitActivity"
  else if agent == "network-exploit" then "networkExploitActivity"
  else if agent == "misconfig-exploit" then "misconfigExploitActivity"
  else if agent == "credential-exploit" then "credentialExploitActivity"
  else if agent == "rdp-vuln" then "rdpVulnActivity"
  else if agent == "rdp-exploit" then "rdpExploitActivity"
  else if agent == "vnc-vuln" then "vncVulnActivity"
  else if agent == "vnc-exploit" then "vncExploitActivity"
  else if agent == "report" then "reportActivity"
  else ""

/-- The outcome the workflow observes when awaiting one scheduled agent
activity through a `proxyActivities` stub: the activity's
`AgentActivityResult`, or the rejection that crosses the await once the
host's retry policy is exhausted.  For an activity name the worker never
registered, that rejection is the host's not-registered failure — see
`workerRejectsUnregistered`. -/
abbrev AgentEnv := AgentName → Except JsError AgentActivityResult

/-- The keys of the `mapping` record literal inside
`getActivityFunction` (src/temporal/workflows.ts). -/
def mappingKeys : List AgentName :=
  [ "pre-recon", "recon"
  , "ssh-vuln", "privesc-vuln", "network-vuln", "misconfig-vuln", "credential-vuln"
  , "ssh-exploit", "privesc-exploit", "network-exploit", "misconfig-exploit"
  , "credential-exploit"
  , "rdp-vuln", "rdp-exploit", "vnc-vuln", "vnc-exploit"
  , "report" ]

/-- `getActivityFunction` (src/temporal/workflows.ts): read the activity
function for an agent out of the `mapping` record.  Each mapping value
is a property read on the `proxyActivities` object (`activities.…`)
whose `get` trap returns a scheduling stub for every property name —
also for `rdpVulnActivity` and the other names the activities module
never exports — so no mapping value is `undefined` and the source's
non-null assertion (`!`) succeeds.  Awaiting a stub yields the
environment's outcome for that agent.  The lookup is `none` only for an
agent name outside the record's keys, which the workflow never
constructs. -/
def getActivityFunction (env : AgentEnv) (agent : AgentName) :
    Option (Unit → Except JsError AgentActivityResult) :=
  if mappingKeys.contains agent then
    some (fun _ => env agent)
  else
    none

/-- The `TypeError` JavaScript would raise if the value of a failed
record lookup were called as a function; with the proxy supplying every
mapping value, this is reachable only for agent names outside
`mappingKeys`. -/
def tyErrNotAFunction (refName : String) : JsError :=
  { name := "TypeError", message := refName ++ " is not a function" }

/-- The worker (src/temporal/worker.ts) registers exactly the
activities-module exports, `allActivities`.  The host runtime — an
external collaborator — fails every scheduled activity whose function
name is not registered there, so once the retry policy is exhausted the
workflow's await rejects; the failure value it carries (an
`ActivityFailure`) is produced by the host, so the environment supplies
it.  An environment is consistent with the worker registration when
every agent whose referenced activity name is unregistered always
rejects. -/
def workerRejectsUnregistered (env : AgentEnv) : Prop :=
  ∀ agent : AgentName, allActivities.contains (activityRefName agent) = false →
    ∃ e, env agent = .error e

-- ==========================================================================
-- runVulnExploitPipeline (src/temporal/workflows.ts)
-- ==========================================================================

/-- Result of one domain's vuln → exploit pipeline: the pipeline state
after the run, the rejection (if the underlying promise rejected), and
the list of agents whose activity await was performed (the scheduling
stub called for that agent). -/
structure DomainRun where
  state : PipelineState
  rejected : Option JsError
  invoked : List AgentName
deriving Repr, DecidableEq

/-- `runVulnExploitPipeline` (src/temporal/workflows.ts): run a
vulnerability analysis → exploitation pipeline for a single domain.
State mutations already applied survive a rejection (shared mutable
state); a rejection aborts the rest of the function. -/
def runVulnExploitPipeline (env : AgentEnv) (domain : String) (state : PipelineState) : DomainRun :=
  let vulnAgent : AgentName := domain ++ "-vuln"
  let exploitAgent : AgentName := domain ++ "-exploit"
  let s1 := pushEvent { state with currentAgent := some vulnAgent } vulnAgent .started
  match getActivityFunction env vulnAgent with
  | none =>
      { state := s1, rejected := some (tyErrNotAFunction "vulnActivityFn"), invoked := [] }
  | some vulnActivityFn =>
    match vulnActivityFn () with
    | .error e => { state := s1, rejected := some e, invoked := [vulnAgent] }
    | .ok vulnResult =>
      let s2 := pushCompletionEvent (recordResult s1 vulnResult) vulnResult
      if !vulnResult.success || vulnResult.deliverables.length == 0 then
        { state := pushEvent
            { s2 with skippedAgents := s2.skippedAgents ++ [exploitAgent] } exploitAgent .skipped
          rejected := none
          invoked := [vulnAgent] }
      else
        let s3 := pushEvent { s2 with currentAgent := some exploitAgent } exploitAgent .started
        match getActivityFunction env exploitAgent with
        | none =>
            { state := s3
              rejected := some (tyErrNotAFunction "exploitActivityFn")
              invoked := [vulnAgent] }
        | some exploitActivityFn =>
          match exploitActivityFn () with
          | .error e => { state := s3, rejected := some e, invoked := [vulnAgent, exploitAgent] }
          | .ok exploitResult =>
            { state := pushCompletionEvent (recordResult s3 exploitResult) exploitResult
              rejected := none
              invoked := [vulnAgent, exploitAgent] }

/-- The seven domains fanned out by `pentestPipelineWorkflow`
(src/temporal/workflows.ts, the `pipelinedPromises` array). -/
def pipelineDomains : List String :=
  ["ssh", "privesc", "network", "misconfig", "credential", "rdp", "vnc"]

/-- `Promise.allSettled` over the domain pipelines plus the subsequent
rejection-recording loop: each settled rejection appends a
`Pipeline error: ...` entry to `state.errors`.  The concurrent
settlement is embedded as sequential composition in domain order; every
claim proved about it is insensitive to the interleaving.
`domainSettleStep` settles one domain: it threads the shared state and
collects the domain promise's rejection, if any. -/
def domainSettleStep (env : AgentEnv) (acc : PipelineState × List JsError) (d : String) :
    PipelineState × List JsError :=
  let r := runVulnExploitPipeline env d acc.1
  (r.state, match r.rejected with
    | some e => acc.2 ++ [e]
    | none => acc.2)

def runDomainPipelines (env : AgentEnv) (domains : List String) (state : PipelineState) : PipelineState :=
  let settled := domains.foldl (domainSettleStep env) (state, [])
  { settled.1 with
    errors := settled.1.errors ++ settled.2.map (fun e => "Pipeline error: " ++ errToString e) }

-- ==========================================================================
-- pentestPipelineWorkflow (src/temporal/workflows.ts)
-- ==========================================================================

/-- The external outcomes a single workflow run observes: one outcome per
agent activity await (post-retry), plus the two non-agent activities. -/
structure WorkflowEnv where
  agentCall : AgentEnv
  toolScan : Except JsError Unit
  assemble : Except JsError Unit

/-- The workflow's top-level `catch` block: set `status := 'failed'`,
append the error message, and re-raise as a wrapped
`ApplicationFailure.nonRetryable` with a `Pipeline failed:` message.
The second component is the raised fatal error. -/
def workflowCatch (s : PipelineState) (e : JsError) : PipelineState × Option String :=
  ({ s with status := .failed, errors := s.errors ++ [e.message] },
   some ("Pipeline failed: " ++ e.message))

/-- `pentestPipelineWorkflow` (src/temporal/workflows.ts): the 5-phase
pipeline.  Returns the final `PipelineState` (observable through the
progress query even when the workflow throws) together with the fatal
error raised from the top-level catch, if any. -/
def pentestPipelineWorkflow (env : WorkflowEnv) (sessionId target : String) :
    PipelineState × Option String :=
  let state := initPipelineState sessionId target
  -- Phase 1: Pre-Reconnaissance
  let s1 := pushEvent
    { state with currentPhase := "Pre-Reconnaissance", currentAgent := some "pre-recon" }
    "pre-recon" .started
  match env.toolScan with
  | .error e => workflowCatch s1 e
  | .ok _ =>
  match env.agentCall "pre-recon" with
  | .error e => workflowCatch s1 e
  | .ok preReconResult =>
  let s2 := pushCompletionEvent (recordResult s1 preReconResult) preReconResult
  -- Phase 2: Reconnaissance
  let s3 := pushEvent
    { s2 with currentPhase := "Reconnaissance", currentAgent := some "recon" } "recon" .started
  match env.agentCall "recon" with
  | .error e => workflowCatch s3 e
  | .ok reconResult =>
  let s4 := pushCompletionEvent (recordResult s3 reconResult) reconResult
  -- Phases 3 & 4: pipelined vuln analysis + exploitation over all domains
  let s5 := runDomainPipelines env.agentCall pipelineDomains
    { s4 with currentPhase := "Vulnerability Analysis & Exploitation" }
  -- Phase 5: Reporting
  let s6 := pushEvent
    { s5 with currentPhase := "Reporting", currentAgent := some "report" } "report" .started
  match env.agentCall "report" with
  | .error e => workflowCatch s6 e
  | .ok reportResult =>
  let s7 := pushCompletionEvent (recordResult s6 reportResult) reportResult
  match env.assemble with
  | .error e => workflowCatch s7 e
  | .ok _ =>
  -- Complete; the source's `failedAgents.length > 0 ? 'completed' : 'completed'`
  -- ternary is kept as written.
  ({ s7 with
      status := if s7.failedAgents.length > 0 then .completed else .completed
      currentPhase := "Complete"
      currentAgent := none },
   none)

/-- All five awaits of the sequential (non-domain) phases succeeded:
tool scan, pre-recon, recon, report, report assembly. -/
def seqPhasesOk (env : WorkflowEnv) : Prop :=
  (∃ u, env.toolScan = .ok u) ∧
  (∃ r, env.agentCall "pre-recon" = .ok r) ∧
  (∃ r, env.agentCall "recon" = .ok r) ∧
  (∃ r, env.agentCall "report" = .ok r) ∧
  (∃ u, env.assemble = .ok u)

-- ==========================================================================
-- executeAgentActivity (src/temporal/activities.ts)
-- ==========================================================================

/-- `MAX_ERROR_LENGTH` (src/constants.ts): maximum error message length
forwarded to Temporal. -/
def MAX_ERROR_LENGTH : Nat := 5000

/-- `err.message.slice(0, MAX_ERROR_LENGTH)`. -/
def truncateError (s : String) : String := s.take MAX_ERROR_LENGTH

/-- `AgentExecutionResult` (src/ai/types.ts): what the opaque
`executeAgent` call returns on success (fields the wrapper reads). -/
structure AgentExecutionResult where
  cost : Rat
  inputTokens : Nat
  outputTokens : Nat
  turns : Nat
deriving Repr, DecidableEq

/-- A `GitManager` checkpoint operation observed during one wrapper
execution (src/utils/git-manager.ts).  Every `GitManager` method wraps
its git invocations in a `try`/`catch` barrier, so none of them ever
raises: invoking them is the only observable effect. -/
inductive GitOp where
  | createCheckpoint
  | commitCheckpoint
  | rollbackCheckpoint
deriving Repr, DecidableEq

/-- `executeAgentActivity` (src/temporal/activities.ts): the task
execution wrapper.  Parameters embed the collaborators:
`execOutcome` is the outcome of the opaque `executeAgent` call — the
sole fault source inside the `try` block (the audit store's loggers
swallow write failures internally, `validateDeliverables` warns and
returns the found list, and every `GitManager` method is
exception-swallowing; the metrics snapshot's file system is modeled as
non-faulting here, with file-system fault injection localized to
`atomicWrite` below) — and `deliverables` is what
`validateDeliverables` returns on the success path.  The heartbeat
interval (started before the `try`, cleared in `finally`) is a pure
liveness signal and is elided.  Returns the wrapper's outcome — `.error`
iff an exception crosses the activity boundary — paired with the trace
of `GitManager` calls in execution order. -/
def executeAgentActivity (agent : AgentName) (duration : Nat)
    (execOutcome : Except JsError AgentExecutionResult)
    (deliverables : List String) :
    Except JsError AgentActivityResult × List GitOp :=
  match execOutcome with
  | .ok result =>
      let metrics : AgentMetrics :=
        { agent := agent
          duration := duration
          cost := result.cost
          inputTokens := result.inputTokens
          outputTokens := result.outputTokens
          turns := result.turns
          attempts := 1
          success := true }
      (.ok { agent := agent, success := true, metrics := metrics, deliverables := deliverables },
       [.createCheckpoint, .commitCheckpoint])
  | .error err =>
      let classified := classifyError err
      let metrics : AgentMetrics :=
        { agent := agent
          duration := duration
          cost := 0
          inputTokens := 0
          outputTokens := 0
          turns := 0
          attempts := 1
          success := false
          error := some (truncateError err.message) }
      if classified.2 then
        (.error err, [.createCheckpoint, .rollbackCheckpoint])
      else
        (.ok { agent := agent, success := false, metrics := metrics, deliverables := []
               error := some (truncateError err.message) },
         [.createCheckpoint, .rollbackCheckpoint])

-- ==========================================================================
-- MetricsTracker.writeFinalSummary (src/audit/metrics-tracker.ts)
-- ==========================================================================

/-- The recomputation performed by `MetricsTracker.writeFinalSummary`
(src/audit/metrics-tracker.ts):
`allMetrics.reduce((sum, m) => sum + m.cost, 0)`. -/
def sumMetricsCost (allMetrics : List AgentMetrics) : Rat :=
  allMetrics.foldl (fun sum m => sum + m.cost) 0

/-- The `totalCost` bookkeeping invariant: the incrementally accumulated
`PipelineState.totalCost` equals the sum recomputed from the recorded
metrics list. -/
def totalCostInvariant (s : PipelineState) : Prop :=
  s.totalCost = sumMetricsCost s.metrics

-- ==========================================================================
-- atomicWrite (src/audit/utils.ts)
-- ==========================================================================

/-- A file system snapshot: a map from paths to complete file contents
(`none` = file absent).  `read` observes a file's content. -/
structure FileSys where
  read : String → Option String

/-- Create or overwrite a file. -/
def FileSys.set (fs : FileSys) (path content : String) : FileSys :=
  ⟨fun q => if q = path then some content else fs.read q⟩

/-- Delete a file (no-op when absent). -/
def FileSys.remove (fs : FileSys) (path : String) : FileSys :=
  ⟨fun q => if q = path then none else fs.read q⟩

/-- Fault injection for `writeFileSync` on the temp file:
`ok` — the full content is written; `fails none` — the call throws
before the file is created; `fails (some written)` — the call throws
after a torn write that left `written` in the temp file. -/
inductive WriteOutcome where
  | ok
  | fails (written : Option String)
deriving Repr, DecidableEq

/-- One `atomicWrite` execution: the file system after each primitive
file-system mutation in order (the states a crash could expose), the
final file system, and whether the call threw. -/
structure AtomicWriteRun where
  states : List FileSys
  final : FileSys
  threw : Bool

/-- The temp path `${filePath}.tmp.${process.pid}`. -/
def tmpPathOf (filePath : String) (pid : Nat) : String :=
  filePath ++ (".tmp." ++ Nat.repr pid)

/-- `atomicWrite` (src/audit/utils.ts): write the full content to
`tmpPath`, then `renameSync` it over the target (renaming is the single
atomic primitive).  On any throw, the `catch` block unlinks the temp
file (itself wrapped in a `try`/`catch` that ignores a failed cleanup,
e.g. when the temp file was never created) and rethrows.  `renameOk`
injects a rename fault (the file system is left as it was before the
rename). -/
def atomicWrite (fs : FileSys) (filePath content : String) (pid : Nat)
    (writeOutcome : WriteOutcome) (renameOk : Bool) : AtomicWriteRun :=
  let tmpPath := tmpPathOf filePath pid
  match writeOutcome with
  | .fails none =>
      let fs1 := fs.remove tmpPath
      { states := [fs1], final := fs1, threw := true }
  | .fails (some written) =>
      let fs1 := fs.set tmpPath written
      let fs2 := fs1.remove tmpPath
      { states := [fs1, fs2], final := fs2, threw := true }
  | .ok =>
      let fs1 := fs.set tmpPath content
      if renameOk then
        let fs2 := (fs1.remove tmpPath).set filePath content
        { states := [fs1, fs2], final := fs2, threw := false }
      else
        let fs2 := fs1.remove tmpPath
        { states := [fs1, fs2], final := fs2, threw := true }

-- ==========================================================================
-- Claims: error classifier
-- ==========================================================================

/-- C5: `classifyError` on the message `"ECONNREFUSED"` yields
`target_unreachable` with `retryable = true`, and on
`"401 unauthorized invalid api key"` yields `auth_error` with
`retryable = false`. -/
theorem classifyError_scenario_pair :
    classifyError { name := "Error", message := "ECONNREFUSED" } =
      (.target_unreachable, true) ∧
    classifyError { name := "Error", message := "401 unauthorized invalid api key" } =
      (.auth_error, false) := by
  decide

/-- C4: `classifyError` is a total function — for every error it returns
exactly one `(type, retryable)` pair — and every error matching none of
the listed patterns maps to the catch-all `unknown_error` with
`retryable = true`. -/
theorem classifyError_total_catch_all (e : JsError) :
    (∃! p : PentestErrorType × Bool, classifyError e = p) ∧
    (matchesListedPattern e = false → classifyError e = (.unknown_error, true)) := by
  refine ⟨⟨classifyError e, rfl, fun y hy => hy.symm⟩, fun h => ?_⟩
  simp only [matchesListedPattern, Bool.or_eq_false_iff] at h
  simp [classifyError, h]

/-- Witness for C4: the message `"zzz"` matches no listed pattern and
classifies to `unknown_error`, retryable. -/
theorem classifyError_total_catch_all_witness :
    classifyError { name := "Error", message := "zzz" } = (.unknown_error, true) :=
  (classifyError_total_catch_all { name := "Error", message := "zzz" }).2 (by decide)

/-- C10 counterexample: the message `"ssh authentication failed"`
contains the substring `"ssh"`, yet `classifyError` returns
`auth_error` with `retryable = false` — the authentication group is
tested before the SSH-connection group, so the claim as stated (every
message containing `"ssh"` classifies as `ssh_connection_error`,
retryable) is false. -/
theorem classifyError_ssh_counterexample :
    strIncludes (lowerStr "ssh authentication failed") "ssh" = true ∧
    classifyError { name := "Error", message := "ssh authentication failed" } =
      (.auth_error, false) ∧
    classifyError { name := "Error", message := "ssh authentication failed" } ≠
      (.ssh_connection_error, true) := by
  decide

/-- C10 (amended): for every error whose lowercased message contains
`"ssh"` and matches none of the three pattern groups tested earlier
(authentication, configuration, target-unreachable), `classifyError`
returns `ssh_connection_error` with `retryable = true` — even when the
message also contains `"permission denied"`, `"access denied"` or
`"eperm"`, since the permission-denied group is tested after the SSH
group. -/
theorem classifyError_ssh_shadows_permission (e : JsError)
    (hssh : strIncludes (lowerStr e.message) "ssh" = true)
    (hpre : matchesPreSshPattern e = false) :
    classifyError e = (.ssh_connection_error, true) := by
  simp only [matchesPreSshPattern, Bool.or_eq_false_iff] at hpre
  simp [classifyError, hssh, hpre]

/-- Witness for the amended C10: `"ssh: permission denied"` contains
both `"ssh"` and `"permission denied"` and classifies as a retryable
`ssh_connection_error`. -/
theorem classifyError_ssh_shadows_permission_witness :
    strIncludes (lowerStr "ssh: permission denied") "permission denied" = true ∧
    classifyError { name := "Error", message := "ssh: permission denied" } =
      (.ssh_connection_error, true) :=
  ⟨by decide,
   classifyError_ssh_shadows_permission { name := "Error", message := "ssh: permission denied" }
     (by decide) (by decide)⟩

-- ==========================================================================
-- Claims: task execution wrapper
-- ==========================================================================

/-- C2: for every fault raised by a task attempt inside
`executeAgentActivity`, an exception crosses the wrapper boundary iff
the classifier marks the fault retryable; a retryable fault is re-raised
unchanged, and a non-retryable fault yields a normal return with
`success = false` and `deliverables = []`. -/
theorem executeAgentActivity_raises_iff_retryable
    (agent : AgentName) (duration : Nat) (err : JsError) (deliverables : List String) :
    ((∃ e, (executeAgentActivity agent duration (.error err) deliverables).1 = .error e) ↔
      (classifyError err).2 = true) ∧
    ((classifyError err).2 = true →
      (executeAgentActivity agent duration (.error err) deliverables).1 = .error err) ∧
    ((classifyError err).2 = false →
      ∃ r, (executeAgentActivity agent duration (.error err) deliverables).1 = .ok r ∧
        r.success = false ∧ r.deliverables = []) := by
  cases h : (classifyError err).2 <;>
    simp [executeAgentActivity, h]

/-- Witness for C2: a retryable fault (`ETIMEDOUT`) is re-raised; a
non-retryable fault (`permission denied`) is converted into a failed
result with no deliverables. -/
theorem executeAgentActivity_raises_iff_retryable_witness :
    (executeAgentActivity "recon" 7 (.error { name := "Error", message := "ETIMEDOUT" }) []).1 =
      .error { name := "Error", message := "ETIMEDOUT" } ∧
    (∃ r,
      (executeAgentActivity "recon" 7
          (.error { name := "Error", message := "permission denied" }) []).1 = .ok r ∧
        r.success = false ∧ r.deliverables = []) :=
  ⟨(executeAgentActivity_raises_iff_retryable "recon" 7
      { name := "Error", message := "ETIMEDOUT" } []).2.1 (by decide),
   (executeAgentActivity_raises_iff_retryable "recon" 7
      { name := "Error", message := "permission denied" } []).2.2 (by decide)⟩

/-- C6: every `executeAgentActivity` execution performs exactly one of
`commitCheckpoint` and `rollbackCheckpoint`: a commit exactly once when
the opaque task call returns, a rollback exactly once when it raises —
never both, never neither. -/
theorem executeAgentActivity_checkpoint_exactly_one
    (agent : AgentName) (duration : Nat)
    (execOutcome : Except JsError AgentExecutionResult) (deliverables : List String) :
    ((executeAgentActivity agent duration execOutcome deliverables).2.count .commitCheckpoint) +
      ((executeAgentActivity agent duration execOutcome deliverables).2.count .rollbackCheckpoint)
        = 1 ∧
    ((executeAgentActivity agent duration execOutcome deliverables).2.count .commitCheckpoint =
      match execOutcome with | .ok _ => 1 | .error _ => 0) ∧
    ((executeAgentActivity agent duration execOutcome deliverables).2.count .rollbackCheckpoint =
      match execOutcome with | .ok _ => 0 | .error _ => 1) := by
  cases execOutcome with
  | ok r => simp [executeAgentActivity, List.count]
  | error e =>
      cases h : (classifyError e).2 <;>
        simp [executeAgentActivity, h, List.count]

-- ==========================================================================
-- Claims: totalCost invariant
-- ==========================================================================

/-- C7: `totalCost = Σ cost` over the recorded metrics holds in the
initial pipeline state and is preserved by every `recordResult` call, so
the incrementally accumulated `totalCost` always equals the sum
recomputed from the metrics list (the recomputation performed by
`MetricsTracker.writeFinalSummary`). -/
theorem recordResult_preserves_totalCost :
    (∀ sessionId target, totalCostInvariant (initPipelineState sessionId target)) ∧
    (∀ s r, totalCostInvariant s → totalCostInvariant (recordResult s r)) := by
  constructor
  · intro sessionId target
    simp [totalCostInvariant, initPipelineState, sumMetricsCost]
  · intro s r h
    simp only [totalCostInvariant, sumMetricsCost] at h ⊢
    simp [recordResult, sumMetricsCost, List.foldl_append, h]
    split <;> simp [h]

/-- Witness for C7: recording a concrete result on a concrete state
satisfying the invariant preserves it. -/
theorem recordResult_preserves_totalCost_witness :
    totalCostInvariant
      (recordResult (initPipelineState "s1" "10.0.0.1")
        { agent := "recon", success := true
          metrics := { agent := "recon", duration := 3, cost := 5/2, inputTokens := 10,
                       outputTokens := 20, turns := 2, attempts := 1, success := true }
          deliverables := ["recon-results.txt"] }) :=
  recordResult_preserves_totalCost.2 (initPipelineState "s1" "10.0.0.1")
    { agent := "recon", success := true
      metrics := { agent := "recon", duration := 3, cost := 5/2, inputTokens := 10,
                   outputTokens := 20, turns := 2, attempts := 1, success := true }
      deliverables := ["recon-results.txt"] }
    (recordResult_preserves_totalCost.1 "s1" "10.0.0.1")

-- ==========================================================================
-- Claims: atomic snapshot write
-- ==========================================================================

lemma tmpPathOf_ne (filePath : String) (pid : Nat) : tmpPathOf filePath pid ≠ filePath := by
  intro h
  have h1 := congrArg String.length h
  rw [tmpPathOf, String.length_append, String.length_append] at h1
  have h2 : String.length ".tmp." = 5 := rfl
  omega

/-- C8: `atomicWrite` writes the full content to a temp file and renames
it over the target, so in every intermediate file-system state a crash
could expose — and in the final state — the target holds either its
previous complete content or the new complete content, never the torn
temp content; on the error path the temp file is removed and the target
is unchanged, and on the success path the target holds the new content
with the temp file gone. -/
theorem atomicWrite_never_torn (fs : FileSys) (filePath content : String) (pid : Nat)
    (writeOutcome : WriteOutcome) (renameOk : Bool) :
    (∀ s ∈ (atomicWrite fs filePath content pid writeOutcome renameOk).states,
      s.read filePath = fs.read filePath ∨ s.read filePath = some content) ∧
    ((atomicWrite fs filePath content pid writeOutcome renameOk).threw = true →
      (atomicWrite fs filePath content pid writeOutcome renameOk).final.read filePath =
        fs.read filePath ∧
      (atomicWrite fs filePath content pid writeOutcome renameOk).final.read
        (tmpPathOf filePath pid) = none) ∧
    ((atomicWrite fs filePath content pid writeOutcome renameOk).threw = false →
      (atomicWrite fs filePath content pid writeOutcome renameOk).final.read filePath =
        some content ∧
      (atomicWrite fs filePath content pid writeOutcome renameOk).final.read
        (tmpPathOf filePath pid) = none) := by
  have hne := tmpPathOf_ne filePath pid
  rcases writeOutcome with _ | (_ | written) <;> rcases renameOk with _ | _ <;>
    simp [atomicWrite, FileSys.set, FileSys.remove, hne, Ne.symm hne]

/-- Witness for C8: a concrete run with an injected rename fault throws,
leaves the previous target content in place, and removes the temp file. -/
theorem atomicWrite_never_torn_witness :
    (atomicWrite ⟨fun q => if q = "session.json" then some "old" else none⟩
        "session.json" "new" 7 .ok false).threw = true ∧
    (atomicWrite ⟨fun q => if q = "session.json" then some "old" else none⟩
        "session.json" "new" 7 .ok false).final.read "session.json" = some "old" ∧
    (atomicWrite ⟨fun q => if q = "session.json" then some "old" else none⟩
        "session.json" "new" 7 .ok false).final.read (tmpPathOf "session.json" 7) = none := by
  refine ⟨rfl, ?_, ?_⟩
  · have h := (atomicWrite_never_torn
      ⟨fun q => if q = "session.json" then some "old" else none⟩
      "session.json" "new" 7 .ok false).2.1 rfl
    rw [h.1]
    rfl
  · exact ((atomicWrite_never_torn
      ⟨fun q => if q = "session.json" then some "old" else none⟩
      "session.json" "new" 7 .ok false).2.1 rfl).2

-- ==========================================================================
-- Claims: producer/consumer skip semantics
-- ==========================================================================

lemma exploit_ne_vuln (domain : String) :
    (domain ++ "-exploit") ≠ (domain ++ "-vuln") := by
  intro h
  have h1 := congrArg String.data h
  simp only [String.data_append] at h1
  exact absurd (List.append_cancel_left h1) (by decide)

lemma refName_of_not_key (agent : AgentName) (hk : mappingKeys.contains agent = false) :
    activityRefName agent = "" := by
  have k : ∀ lit : AgentName, mappingKeys.contains lit = true → ((agent == lit) = true → False) := by
    intro lit hl hb
    rw [beq_iff_eq.mp hb] at hk
    rw [hk] at hl
    exact Bool.false_ne_true hl
  unfold activityRefName
  rw [if_neg (k "pre-recon" (by decide)),
      if_neg (k "recon" (by decide)),
      if_neg (k "ssh-vuln" (by decide)),
      if_neg (k "privesc-vuln" (by decide)),
      if_neg (k "network-vuln" (by decide)),
      if_neg (k "misconfig-vuln" (by decide)),
      if_neg (k "credential-vuln" (by decide)),
      if_neg (k "ssh-exploit" (by decide)),
      if_neg (k "privesc-exploit" (by decide)),
      if_neg (k "network-exploit" (by decide)),
      if_neg (k "misconfig-exploit" (by decide)),
      if_neg (k "credential-exploit" (by decide)),
      if_neg (k "rdp-vuln" (by decide)),
      if_neg (k "rdp-exploit" (by decide)),
      if_neg (k "vnc-vuln" (by decide)),
      if_neg (k "vnc-exploit" (by decide)),
      if_neg (k "report" (by decide))]

lemma registered_mem_mappingKeys (agent : AgentName)
    (h : allActivities.contains (activityRefName agent) = true) :
    mappingKeys.contains agent = true := by
  by_contra hk
  rw [Bool.not_eq_true] at hk
  rw [refName_of_not_key agent hk] at h
  exact absurd h (by decide)

/-- C1: when a domain's vulnerability-analysis (producer) activity
returns a result with `success = false` or an empty deliverables list,
the domain's exploitation (consumer) activity is never invoked, the
consumer agent is appended to `skippedAgents`, the run settles without
rejection, and the consumer agent appears in neither `failedAgents` nor
`completedAgents`. -/
theorem runVulnExploitPipeline_skips_consumer
    (env : AgentEnv) (domain : String) (s : PipelineState) (r : AgentActivityResult)
    (hreg : allActivities.contains (activityRefName (domain ++ "-vuln")) = true)
    (henv : env (domain ++ "-vuln") = .ok r)
    (hagent : r.agent = domain ++ "-vuln")
    (hfail : r.success = false ∨ r.deliverables = [])
    (hf : (domain ++ "-exploit") ∉ s.failedAgents)
    (hc : (domain ++ "-exploit") ∉ s.completedAgents) :
    (runVulnExploitPipeline env domain s).invoked = [domain ++ "-vuln"] ∧
    (runVulnExploitPipeline env domain s).rejected = none ∧
    (domain ++ "-exploit") ∈ (runVulnExploitPipeline env domain s).state.skippedAgents ∧
    (domain ++ "-exploit") ∉ (runVulnExploitPipeline env domain s).state.failedAgents ∧
    (domain ++ "-exploit") ∉ (runVulnExploitPipeline env domain s).state.completedAgents := by
  have hne := exploit_ne_vuln domain
  have hcond : (!r.success || r.deliverables.length == 0) = true := by
    rcases hfail with h | h <;> simp [h]
  have hkey := registered_mem_mappingKeys _ hreg
  simp only [runVulnExploitPipeline, getActivityFunction, hkey, if_true, henv, hcond]
  cases hrs : r.success <;>
    simp [pushEvent, pushCompletionEvent, recordResult, hrs, hagent, hne, hf, hc]

/-- A concrete environment for witnesses: every activity returns a failed
result with no deliverables. -/
def envAllFail : AgentEnv := fun a =>
  .ok { agent := a, success := false
        metrics := { agent := a, duration := 0, cost := 0, inputTokens := 0,
                     outputTokens := 0, turns := 0, attempts := 1, success := false }
        deliverables := [] }

/-- Witness for C1: with a failing `ssh-vuln` producer, the `ssh`
pipeline skips `ssh-exploit` without invoking it. -/
theorem runVulnExploitPipeline_skips_consumer_witness :
    (runVulnExploitPipeline envAllFail "ssh" (initPipelineState "s" "t")).invoked =
      ["ssh-vuln"] ∧
    (runVulnExploitPipeline envAllFail "ssh" (initPipelineState "s" "t")).rejected = none ∧
    "ssh-exploit" ∈
      (runVulnExploitPipeline envAllFail "ssh" (initPipelineState "s" "t")).state.skippedAgents ∧
    "ssh-exploit" ∉
      (runVulnExploitPipeline envAllFail "ssh" (initPipelineState "s" "t")).state.failedAgents ∧
    "ssh-exploit" ∉
      (runVulnExploitPipeline envAllFail "ssh" (initPipelineState "s" "t")).state.completedAgents :=
  runVulnExploitPipeline_skips_consumer envAllFail "ssh" (initPipelineState "s" "t") _
    (by decide) rfl rfl (Or.inl rfl) (by decide) (by decide)

-- ==========================================================================
-- Claims: undefined rdp/vnc activities
-- ==========================================================================

/-- An agent not recorded in any of the three terminal bookkeeping lists
of a pipeline state. -/
def agentUntracked (x : AgentName) (s : PipelineState) : Prop :=
  x ∉ s.completedAgents ∧ x ∉ s.failedAgents ∧ x ∉ s.skippedAgents

/-- A concrete environment consistent with the worker registration:
registered activities return a failed result, unregistered ones reject
with the host's not-registered failure. -/
def envWorker : AgentEnv := fun a =>
  if allActivities.contains (activityRefName a) then
    .ok { agent := a, success := false
          metrics := { agent := a, duration := 0, cost := 0, inputTokens := 0,
                       outputTokens := 0, turns := 0, attempts := 1, success := false }
          deliverables := [] }
  else
    .error { name := "ActivityFailure"
             message := "Activity function " ++ activityRefName a ++
               " is not registered on this Worker" }

lemma envWorker_rejects : workerRejectsUnregistered envWorker := by
  intro a h
  have h1 : ¬ activityRefName a ∈ allActivities := by simpa using h
  exact ⟨{ name := "ActivityFailure"
           message := "Activity function " ++ activityRefName a ++
             " is not registered on this Worker" },
    by simp [envWorker, h1]⟩

lemma envWorker_wf : ∀ a r, envWorker a = .ok r → r.agent = a := by
  intro a r h
  by_cases hr : allActivities.contains (activityRefName a) = true
  · simp only [envWorker, hr, if_true, Except.ok.injEq] at h
    exact h ▸ rfl
  · have h1 : ¬ activityRefName a ∈ allActivities := by simpa using hr
    simp [envWorker, h1] at h

lemma rdp_run (env : AgentEnv) (s : PipelineState) (e : JsError)
    (he : env "rdp-vuln" = .error e) :
    runVulnExploitPipeline env "rdp" s =
      { state := pushEvent { s with currentAgent := some "rdp-vuln" } "rdp-vuln" .started
        rejected := some e
        invoked := ["rdp-vuln"] } := by
  have hs : ("rdp" : String) ++ "-vuln" = "rdp-vuln" := rfl
  have h1 : getActivityFunction env "rdp-vuln" = some (fun _ => env "rdp-vuln") := rfl
  simp [runVulnExploitPipeline, hs, h1, he]

lemma vnc_run (env : AgentEnv) (s : PipelineState) (e : JsError)
    (he : env "vnc-vuln" = .error e) :
    runVulnExploitPipeline env "vnc" s =
      { state := pushEvent { s with currentAgent := some "vnc-vuln" } "vnc-vuln" .started
        rejected := some e
        invoked := ["vnc-vuln"] } := by
  have hs : ("vnc" : String) ++ "-vuln" = "vnc-vuln" := rfl
  have h1 : getActivityFunction env "vnc-vuln" = some (fun _ => env "vnc-vuln") := rfl
  simp [runVulnExploitPipeline, hs, h1, he]

lemma pushEvent_untracked (s : PipelineState) (a : AgentName) (k : AgentEventKind)
    (x : AgentName) (h : agentUntracked x s) : agentUntracked x (pushEvent s a k) := by
  cases k <;> simpa [agentUntracked, pushEvent] using h

lemma step_reasons_mono (env : AgentEnv) (d : String) (acc : PipelineState × List JsError)
    (e : JsError) (he : e ∈ acc.2) : e ∈ (domainSettleStep env acc d).2 := by
  unfold domainSettleStep
  cases h1 : (runVulnExploitPipeline env d acc.1).rejected <;> simp [h1, he]

lemma rdp_step (env : AgentEnv) (acc : PipelineState × List JsError) (e : JsError)
    (he : env "rdp-vuln" = .error e) :
    domainSettleStep env acc "rdp" =
      (pushEvent { acc.1 with currentAgent := some "rdp-vuln" } "rdp-vuln" .started,
       acc.2 ++ [e]) := by
  simp [domainSettleStep, rdp_run env acc.1 e he]

lemma vnc_step (env : AgentEnv) (acc : PipelineState × List JsError) (e : JsError)
    (he : env "vnc-vuln" = .error e) :
    domainSettleStep env acc "vnc" =
      (pushEvent { acc.1 with currentAgent := some "vnc-vuln" } "vnc-vuln" .started,
       acc.2 ++ [e]) := by
  simp [domainSettleStep, vnc_run env acc.1 e he]

lemma rdp_step_untracked (env : AgentEnv) (acc : PipelineState × List JsError)
    (x : AgentName) (e : JsError) (he : env "rdp-vuln" = .error e)
    (h : agentUntracked x acc.1) : agentUntracked x (domainSettleStep env acc "rdp").1 := by
  rw [rdp_step env acc e he]
  exact pushEvent_untracked _ _ _ _ h

lemma vnc_step_untracked (env : AgentEnv) (acc : PipelineState × List JsError)
    (x : AgentName) (e : JsError) (he : env "vnc-vuln" = .error e)
    (h : agentUntracked x acc.1) : agentUntracked x (domainSettleStep env acc "vnc").1 := by
  rw [vnc_step env acc e he]
  exact pushEvent_untracked _ _ _ _ h

lemma pushCompletionEvent_untracked (s : PipelineState) (r : AgentActivityResult)
    (x : AgentName) (h : agentUntracked x s) : agentUntracked x (pushCompletionEvent s r) := by
  simpa [agentUntracked, pushCompletionEvent] using h

lemma recordResult_untracked (s : PipelineState) (r : AgentActivityResult)
    (x : AgentName) (hna : x ≠ r.agent) (h : agentUntracked x s) :
    agentUntracked x (recordResult s r) := by
  obtain ⟨h1, h2, h3⟩ := h
  unfold recordResult
  cases hrs : r.success <;> simp [agentUntracked, List.mem_append, h1, h2, h3, hna]

lemma runVulnExploitPipeline_untracked (env : AgentEnv) (d : String) (s : PipelineState)
    (x : AgentName)
    (hwf : ∀ a r, env a = .ok r → r.agent = a)
    (hx1 : x ≠ d ++ "-vuln") (hx2 : x ≠ d ++ "-exploit")
    (h : agentUntracked x s) :
    agentUntracked x (runVulnExploitPipeline env d s).state := by
  obtain ⟨h1, h2, h3⟩ := h
  unfold runVulnExploitPipeline
  by_cases hkey : mappingKeys.contains (d ++ "-vuln") = true
  · simp only [getActivityFunction, hkey, if_true]
    rcases he : env (d ++ "-vuln") with e | r
    · exact pushEvent_untracked _ _ _ _ ⟨h1, h2, h3⟩
    · have hra : x ≠ r.agent := by rw [hwf _ _ he]; exact hx1
      have hu2 : agentUntracked x (pushCompletionEvent
          (recordResult (pushEvent { s with currentAgent := some (d ++ "-vuln") }
            (d ++ "-vuln") .started) r) r) :=
        pushCompletionEvent_untracked _ _ _
          (recordResult_untracked _ _ _ hra
            (pushEvent_untracked _ _ _ _ ⟨h1, h2, h3⟩))
      cases hsc : (!r.success || r.deliverables.length == 0)
      · simp only [hsc, Bool.false_eq_true, if_false]
        by_cases hkey2 : mappingKeys.contains (d ++ "-exploit") = true
        · simp only [getActivityFunction, hkey2, if_true]
          rcases he2 : env (d ++ "-exploit") with e2 | r2
          · exact pushEvent_untracked _ _ _ _ hu2
          · have hra2 : x ≠ r2.agent := by rw [hwf _ _ he2]; exact hx2
            exact pushCompletionEvent_untracked _ _ _
              (recordResult_untracked _ _ _ hra2 (pushEvent_untracked _ _ _ _ hu2))
        · simp only [getActivityFunction, hkey2, if_false]
          exact pushEvent_untracked _ _ _ _ hu2
      · simp only [hsc, if_true]
        refine pushEvent_untracked _ _ _ _ ⟨hu2.1, hu2.2.1, ?_⟩
        simp [List.mem_append, hu2.2.2, hx2]
  · simp only [getActivityFunction, hkey, if_false]
    exact pushEvent_untracked _ _ _ _ ⟨h1, h2, h3⟩

lemma fold_untracked (env : AgentEnv) (hunreg : workerRejectsUnregistered env)
    (hwf : ∀ a r, env a = .ok r → r.agent = a)
    (s : PipelineState) (x : AgentName)
    (hx : x ∈ (["rdp-vuln", "rdp-exploit", "vnc-vuln", "vnc-exploit"] : List AgentName))
    (h : agentUntracked x s) :
    agentUntracked x (runDomainPipelines env pipelineDomains s) := by
  obtain ⟨er, her⟩ := hunreg "rdp-vuln" (by decide)
  obtain ⟨ev, hev⟩ := hunreg "vnc-vuln" (by decide)
  have hstep : ∀ (d : String) (acc : PipelineState × List JsError),
      x ≠ d ++ "-vuln" → x ≠ d ++ "-exploit" →
      agentUntracked x acc.1 → agentUntracked x (domainSettleStep env acc d).1 :=
    fun d acc h1 h2 hu => runVulnExploitPipeline_untracked env d acc.1 x hwf h1 h2 hu
  have hfold : agentUntracked x ((pipelineDomains.foldl (domainSettleStep env) (s, [])).1) := by
    simp only [pipelineDomains, List.foldl]
    fin_cases hx <;>
      exact vnc_step_untracked _ _ _ ev hev (rdp_step_untracked _ _ _ er her
        (hstep _ _ (by decide) (by decide) (hstep _ _ (by decide) (by decide)
          (hstep _ _ (by decide) (by decide) (hstep _ _ (by decide) (by decide)
            (hstep _ _ (by decide) (by decide) h))))))
  simpa [runDomainPipelines, agentUntracked] using hfold

lemma runDomainPipelines_pipeline_errors (env : AgentEnv)
    (hunreg : workerRejectsUnregistered env) (s : PipelineState) :
    ∃ e1 e2, env "rdp-vuln" = .error e1 ∧ env "vnc-vuln" = .error e2 ∧
      ("Pipeline error: " ++ errToString e1) ∈
        (runDomainPipelines env pipelineDomains s).errors ∧
      ("Pipeline error: " ++ errToString e2) ∈
        (runDomainPipelines env pipelineDomains s).errors := by
  obtain ⟨e1, he1⟩ := hunreg "rdp-vuln" (by decide)
  obtain ⟨e2, he2⟩ := hunreg "vnc-vuln" (by decide)
  have hr : e1 ∈ (pipelineDomains.foldl (domainSettleStep env) (s, [])).2 := by
    simp only [pipelineDomains, List.foldl]
    refine step_reasons_mono env "vnc" _ _ ?_
    rw [rdp_step env _ e1 he1]
    simp
  have hv : e2 ∈ (pipelineDomains.foldl (domainSettleStep env) (s, [])).2 := by
    simp only [pipelineDomains, List.foldl]
    rw [vnc_step env _ e2 he2]
    simp
  refine ⟨e1, e2, he1, he2, ?_, ?_⟩
  · simp only [runDomainPipelines, List.mem_append]
    exact Or.inr (List.mem_map.2 ⟨_, hr, rfl⟩)
  · simp only [runDomainPipelines, List.mem_append]
    exact Or.inr (List.mem_map.2 ⟨_, hv, rfl⟩)

/-- C9 counterexample: the `proxyActivities` lookup never yields
`undefined` — for a concrete environment consistent with the worker
registration, `getActivityFunction` is `some` (a scheduling stub) for
all four `rdp`/`vnc` agents, so the non-null assertion is not violated,
and the `rdp` pipeline's rejection is the host's not-registered failure
rather than a `TypeError` from calling `undefined`. -/
theorem rdp_vnc_lookup_not_undefined :
    (getActivityFunction envWorker "rdp-vuln").isSome = true ∧
    (getActivityFunction envWorker "rdp-exploit").isSome = true ∧
    (getActivityFunction envWorker "vnc-vuln").isSome = true ∧
    (getActivityFunction envWorker "vnc-exploit").isSome = true ∧
    (runVulnExploitPipeline envWorker "rdp" (initPipelineState "s" "t")).rejected ≠
      some (tyErrNotAFunction "rdpVulnActivity") :=
  ⟨rfl, rfl, rfl, rfl, by decide⟩

/-- C9 (amended): the activities module never defines or registers
`rdpVulnActivity`, `rdpExploitActivity`, `vncVulnActivity` or
`vncExploitActivity`; `getActivityFunction`'s lookup on the proxy
nevertheless yields a scheduling stub (never `undefined`), and awaiting
that stub rejects with the host's not-registered failure, so every
`rdp`/`vnc` domain pipeline rejects right after marking its vuln agent
started, the settlement loop appends a `Pipeline error: ...` entry to
`state.errors`, and the `rdp`/`vnc` agents never enter
`completedAgents`, `failedAgents` or `skippedAgents`. -/
theorem rdp_vnc_pipelines_reject :
    (allActivities.contains "rdpVulnActivity" = false ∧
      allActivities.contains "rdpExploitActivity" = false ∧
      allActivities.contains "vncVulnActivity" = false ∧
      allActivities.contains "vncExploitActivity" = false) ∧
    (∀ env : AgentEnv,
      (getActivityFunction env "rdp-vuln").isSome = true ∧
      (getActivityFunction env "rdp-exploit").isSome = true ∧
      (getActivityFunction env "vnc-vuln").isSome = true ∧
      (getActivityFunction env "vnc-exploit").isSome = true) ∧
    (∀ env : AgentEnv, workerRejectsUnregistered env → ∀ s : PipelineState,
      (∃ e, env "rdp-vuln" = .error e ∧
        runVulnExploitPipeline env "rdp" s =
          { state := pushEvent { s with currentAgent := some "rdp-vuln" } "rdp-vuln" .started
            rejected := some e
            invoked := ["rdp-vuln"] }) ∧
      (∃ e, env "vnc-vuln" = .error e ∧
        runVulnExploitPipeline env "vnc" s =
          { state := pushEvent { s with currentAgent := some "vnc-vuln" } "vnc-vuln" .started
            rejected := some e
            invoked := ["vnc-vuln"] })) ∧
    (∀ env : AgentEnv, workerRejectsUnregistered env → ∀ s : PipelineState,
      ∃ e1 e2, env "rdp-vuln" = .error e1 ∧ env "vnc-vuln" = .error e2 ∧
        ("Pipeline error: " ++ errToString e1) ∈
          (runDomainPipelines env pipelineDomains s).errors ∧
        ("Pipeline error: " ++ errToString e2) ∈
          (runDomainPipelines env pipelineDomains s).errors) ∧
    (∀ env : AgentEnv, workerRejectsUnregistered env →
      (∀ a r, env a = .ok r → r.agent = a) →
      ∀ (s : PipelineState) (x : AgentName),
        x ∈ (["rdp-vuln", "rdp-exploit", "vnc-vuln", "vnc-exploit"] : List AgentName) →
        agentUntracked x s →
        agentUntracked x (runDomainPipelines env pipelineDomains s)) := by
  refine ⟨⟨by decide, by decide, by decide, by decide⟩,
    fun env => ⟨rfl, rfl, rfl, rfl⟩,
    fun env hunreg s => ?_,
    fun env hunreg s => runDomainPipelines_pipeline_errors env hunreg s,
    fun env hunreg hwf s x hx h => fold_untracked env hunreg hwf s x hx h⟩
  obtain ⟨e1, he1⟩ := hunreg "rdp-vuln" (by decide)
  obtain ⟨e2, he2⟩ := hunreg "vnc-vuln" (by decide)
  exact ⟨⟨e1, he1, rdp_run env s e1 he1⟩, ⟨e2, he2, vnc_run env s e2 he2⟩⟩

/-- Witness for C9: with the concrete worker-consistent environment,
`rdp-vuln` stays out of all three terminal lists across the full
domain-phase run. -/
theorem rdp_vnc_pipelines_reject_witness :
    agentUntracked "rdp-vuln"
      (runDomainPipelines envWorker pipelineDomains (initPipelineState "s" "t")) :=
  rdp_vnc_pipelines_reject.2.2.2.2 envWorker envWorker_rejects envWorker_wf
    (initPipelineState "s" "t") "rdp-vuln" (by decide)
    ⟨by decide, by decide, by decide⟩

-- ==========================================================================
-- Claims: terminal pipeline status
-- ==========================================================================

/-- C3: the workflow raises a wrapped `Pipeline failed:` fatal error and
ends with status `failed` exactly when a sequential (non-domain) phase
await rejects; otherwise it returns normally with status `completed` —
domain-pipeline task failures alone (surfaced in `failedAgents` and
`errors`) never flip the terminal status. -/
theorem pentestPipelineWorkflow_status (env : WorkflowEnv) (sessionId target : String) :
    ((pentestPipelineWorkflow env sessionId target).2 = none ↔ seqPhasesOk env) ∧
    ((pentestPipelineWorkflow env sessionId target).1.status = .completed ↔
      (pentestPipelineWorkflow env sessionId target).2 = none) ∧
    ((pentestPipelineWorkflow env sessionId target).1.status = .failed ↔
      ¬ (pentestPipelineWorkflow env sessionId target).2 = none) ∧
    (¬ seqPhasesOk env →
      ∃ emsg, (pentestPipelineWorkflow env sessionId target).2 =
        some ("Pipeline failed: " ++ emsg)) := by
  cases h1 : env.toolScan <;> cases h2 : env.agentCall "pre-recon" <;>
    cases h3 : env.agentCall "recon" <;> cases h4 : env.agentCall "report" <;>
    cases h5 : env.assemble <;>
    simp [pentestPipelineWorkflow, workflowCatch, seqPhasesOk, h1, h2, h3, h4, h5]

/-- Witness for C3: a run in which every agent activity returns a failed
outcome (so `failedAgents` is non-empty) still terminates normally with
status `completed`. -/
theorem pentestPipelineWorkflow_status_witness :
    (pentestPipelineWorkflow ⟨envAllFail, .ok (), .ok ()⟩ "s" "t").2 = none ∧
    (pentestPipelineWorkflow ⟨envAllFail, .ok (), .ok ()⟩ "s" "t").1.status = .completed ∧
    (pentestPipelineWorkflow ⟨envAllFail, .ok (), .ok ()⟩ "s" "t").1.failedAgents ≠ [] := by
  have hseq : seqPhasesOk ⟨envAllFail, .ok (), .ok ()⟩ :=
    ⟨⟨(), rfl⟩, ⟨_, rfl⟩, ⟨_, rfl⟩, ⟨_, rfl⟩, ⟨(), rfl⟩⟩
  have h := pentestPipelineWorkflow_status ⟨envAllFail, .ok (), .ok ()⟩ "s" "t"
  have h2 := h.1.mpr hseq
  exact ⟨h2, h.2.1.mpr h2, by decide⟩
